import Mathlib

/-
Verification development for the EPIC hydro-scheme optimizer
(constants.py, hydro_utils.py, EPIC.py).

Shallow embedding: Python float arithmetic is idealized as exact rational
arithmetic over ℚ.  The transcendental library functions used by the source
(math.sqrt, math.log base 10, the fractional power x ** 0.25, and
tan ∘ radians) are not part of the repository; they are abstracted as a
bundle of function parameters `MathOps`, so every theorem quantifies over
them unless a concrete instantiation is exhibited.  The library constant
math.pi is embedded as a fixed positive rational stand-in `mathPi`; no
theorem below depends on its particular value.
-/

namespace EPIC

/-- Error taxonomy used by the embedding.  The Python source aborts the
process with sys.exit on an unsupported catchment shape and on a head above
the maximum; the spec names these conditions DomainError. -/
inductive DomainError
  | unsupportedShape
  | headTooLarge
deriving DecidableEq, Repr

/-- Abstraction of the external math-library functions used by the source:
`sqrt` for math.sqrt, `log10` for math.log(x, 10), `pow025` for the float
power x ** 0.25, and `tan_deg` for tan(radians(degrees)). -/
structure MathOps where
  sqrt : ℚ → ℚ
  log10 : ℚ → ℚ
  pow025 : ℚ → ℚ
  tan_deg : ℚ → ℚ

/-- Rational stand-in for the external library constant math.pi. -/
def mathPi : ℚ := 3.141592653589793

/- Constants from constants.py. -/

/-- Generation tariff in GBP (high), from constants.py. -/
def GTHigh : ℚ := 0.17

/-- Generation tariff in GBP (low), from constants.py. -/
def GTLow : ℚ := 0.135

/-- Gravity, from constants.py. -/
def G : ℚ := 9.81

/-- Kinematic viscosity of water (10 ** -6), from constants.py. -/
def V_H2O : ℚ := 1 / 1000000

/-- Surface roughness of PVC, from constants.py. -/
def E_PVC : ℚ := 0.003

/-- Surface roughness of ductile iron, from constants.py. -/
def E_DI : ℚ := 0.15

/-- Surface roughness of glass reinforced plastic, from constants.py. -/
def E_GRP : ℚ := 0.029

/-- Density of water, from constants.py. -/
def DWater : ℚ := 1000

/-- Hydro estimation parameter, from constants.py. -/
def HEP : ℚ := 8.0

/-- Average fraction of project cost which is from the penstock, from
constants.py. -/
def PenFrac : ℚ := 0.2

/-- Maximum head (meters) at which PVC may be used, from constants.py. -/
def PVC_Constraint_MaxHead : ℚ := 120

/-- Maximum diameter (meters) at which PVC may be used, from constants.py. -/
def PVC_Constraint_MaxDiameter : ℚ := 0.5

/- Catchment area model: get_area in hydro_utils.py.
Each branch formula is named so that branch-boundary claims can refer to it;
get_area assembles them exactly as the source's if/elif chain does. -/

/-- Triangle branch of get_area (catch_type 1). -/
def triangle_area (cl Hz : ℚ) : ℚ :=
  ((cl ^ 2 * 0.5) - (Hz ^ 2 * 0.5)) / (cl ^ 2 * 0.5)

/-- Rectangle branch of get_area (catch_type 2). -/
def rectangle_area (cl Hz : ℚ) : ℚ :=
  ((cl ^ 2 * 0.5) - (Hz * cl * 0.5)) / (cl ^ 2 * 0.5)

/-- Pentagon branch of get_area for Hz <= cl / 2 (intake within the
rectangular section). -/
def pentagon_area_rect (cl Hz : ℚ) : ℚ :=
  ((3 * cl ^ 2 / 8) - (Hz * cl * 0.5)) / (3 * cl ^ 2 / 8)

/-- Pentagon branch of get_area for Hz > cl / 2 (intake past the
rectangular section). -/
def pentagon_area_tri (cl Hz : ℚ) : ℚ :=
  ((3 * cl ^ 2 / 8) - (cl ^ 2 / 4) - ((cl ^ 2 / 8) - (cl - Hz) ^ 2 * 0.5)) / (3 * cl ^ 2 / 8)

/-- Hexagon branch of get_area for Hz <= cl / 3. -/
def hexagon_area_1 (cl Hz : ℚ) : ℚ :=
  ((2 * cl ^ 2 / 9) - (Hz ^ 2 * 0.5)) / (2 * cl ^ 2 / 9)

/-- Hexagon branch of get_area for cl / 3 < Hz <= 2 * cl / 3. -/
def hexagon_area_2 (cl Hz : ℚ) : ℚ :=
  ((2 * cl ^ 2 / 9) - (cl ^ 2 / 18) - ((Hz - cl / 3) * (cl / 3))) / (2 * cl ^ 2 / 9)

/-- Hexagon branch of get_area for Hz > 2 * cl / 3. -/
def hexagon_area_3 (cl Hz : ℚ) : ℚ :=
  ((cl - Hz) ^ 2 * 0.5) / (2 * cl ^ 2 / 9)

/-- Pentagon case of get_area: the source's inner if on Hz <= cl / 2. -/
def pentagon_area (cl Hz : ℚ) : ℚ :=
  if Hz ≤ cl / 2 then pentagon_area_rect cl Hz else pentagon_area_tri cl Hz

/-- Hexagon case of get_area: the source's inner if/elif/else chain on Hz
against cl / 3 and 2 * cl / 3. -/
def hexagon_area (cl Hz : ℚ) : ℚ :=
  if Hz ≤ cl / 3 then hexagon_area_1 cl Hz
  else if cl / 3 < Hz ∧ Hz ≤ 2 * cl / 3 then hexagon_area_2 cl Hz
  else hexagon_area_3 cl Hz

/-- Embedding of get_area from hydro_utils.py.  The source's final else
branch prints a message and exits; this is modelled as a DomainError. -/
def get_area (catch_type : ℤ) (cl Hz : ℚ) : Except DomainError ℚ :=
  if catch_type = 1 then
    Except.ok (triangle_area cl Hz)
  else if catch_type = 2 then
    Except.ok (rectangle_area cl Hz)
  else if catch_type = 3 then
    Except.ok (pentagon_area cl Hz)
  else if catch_type = 4 then
    Except.ok (hexagon_area cl Hz)
  else
    Except.error DomainError.unsupportedShape

/-- Area fraction as a total function on supported shapes: the ok value of
get_area, with 0 as a don't-care default on the error branch. -/
def area_fraction (catch_type : ℤ) (cl Hz : ℚ) : ℚ :=
  ((get_area catch_type cl Hz).toOption).getD 0

/- Scheme economics functions from hydro_utils.py. -/

/-- Embedding of get_scheme_capacity from hydro_utils.py. -/
def get_scheme_capacity (head head_loss Q efficiency : ℚ) : ℚ :=
  (head - head_loss) * Q * G * efficiency * DWater / 1000

/-- Embedding of get_scheme_annual_revenue from hydro_utils.py. -/
def get_scheme_annual_revenue (C FIT P R interest total : ℚ) : ℚ :=
  C * (365 * 24) * (FIT + P) * R - (interest * total)

/-- Embedding of get_head_loss from hydro_utils.py. -/
def get_head_loss (F L D Q : ℚ) : ℚ :=
  F * L / D * Q ^ 2 / (2 * G * (mathPi * (D / 2) ^ 2) ^ 2)

/-- Embedding of get_renaulds_number from hydro_utils.py. -/
def get_renaulds_number (Q D : ℚ) : ℚ :=
  (Q * D) / ((mathPi * (D / 2) ^ 2) * V_H2O)

/-- One round of the DI/GRP friction-coefficient update from
get_friction_coeff in hydro_utils.py, written exactly as the source line:
f = ((1) - (-2 * log(((E / 3.7 * D) + (2.51 / (Rn * sqrt(f)))), 10))) ** 2.
Python parses E / 3.7 * D as (E / 3.7) * D. -/
def colebrook_update (ops : MathOps) (E D Rn f : ℚ) : ℚ :=
  (1 - (-2 * ops.log10 ((E / 3.7 * D) + (2.51 / (Rn * ops.sqrt f))))) ^ 2

/-- Iterates of the DI/GRP update, seeded at 1 (the source's fl list:
frictionIter n is fl[n]). -/
def frictionIter (ops : MathOps) (E D Rn : ℚ) : ℕ → ℚ
  | 0 => 1
  | n + 1 => colebrook_update ops E D Rn (frictionIter ops E D Rn n)

/-- Embedding of get_friction_coeff from hydro_utils.py.  The source's loop
`for i in range(1, iterations)` with iterations = 100 performs 99 updates
and returns fl[99]; an unrecognized material leaves f at its initial 0.0. -/
def get_friction_coeff (ops : MathOps) (Q D E : ℚ) (M : String) : ℚ :=
  let Rn := get_renaulds_number Q D
  if M = "PVC" then
    0.0079 * ops.pow025 Rn
  else if M = "DI" ∨ M = "GRP" then
    frictionIter ops E D Rn (100 - 1)
  else
    0

/- Pipe selection optimizer: get_optimum_pipe_for_head in hydro_utils.py. -/

/-- One row of the pipe cost table: (diameter, pvc, di, grp), as unpacked by
the optimizer's for loop. -/
structure PipeRow where
  diameter : ℚ
  pvc : ℚ
  di : ℚ
  grp : ℚ
deriving DecidableEq, Repr

/-- The pipe dictionary built by get_optimum_pipe_for_head for each row and
returned as the overall optimum. -/
structure Pipe where
  diameter : ℚ
  material : String
  head_loss : ℚ
  annual_head_loss_cost : ℚ
  annual_capital_cost : ℚ
  total_annual_cost : ℚ
deriving DecidableEq, Repr

/-- The initial optimum_pipe dictionary of get_optimum_pipe_for_head:
diameter 0.0, empty material, and sentinel total annual cost 999999999.9. -/
def initOptimum : Pipe :=
  { diameter := 0
    material := ""
    head_loss := 0
    annual_head_loss_cost := 0
    annual_capital_cost := 0
    total_annual_cost := 999999999.9 }

/-- Total annual cost of the PVC alternative for one row, as computed in the
PVC branch of get_optimum_pipe_for_head (the PVC call to get_friction_coeff
leaves E at its default 0.0). -/
def rowCostPVC (ops : MathOps) (design_flow penstock_length FIT efficiency market_price interest : ℚ)
    (r : PipeRow) : ℚ :=
  penstock_length * r.pvc * interest
    + get_head_loss (get_friction_coeff ops design_flow r.diameter 0 "PVC") penstock_length r.diameter design_flow
        * design_flow * G * efficiency * (365 * 24) * (FIT + market_price)

/-- Total annual cost of the ductile-iron alternative for one row, as
computed in the else branch of get_optimum_pipe_for_head. -/
def rowCostDI (ops : MathOps) (design_flow penstock_length FIT efficiency market_price interest : ℚ)
    (r : PipeRow) : ℚ :=
  penstock_length * r.di * interest
    + get_head_loss (get_friction_coeff ops design_flow r.diameter E_DI "DI") penstock_length r.diameter design_flow
        * design_flow * G * efficiency * (365 * 24) * (FIT + market_price)

/-- Total annual cost of the glass-reinforced-plastic alternative for one
row, as computed in the else branch of get_optimum_pipe_for_head. -/
def rowCostGRP (ops : MathOps) (design_flow penstock_length FIT efficiency market_price interest : ℚ)
    (r : PipeRow) : ℚ :=
  penstock_length * r.grp * interest
    + get_head_loss (get_friction_coeff ops design_flow r.diameter E_GRP "GRP") penstock_length r.diameter design_flow
        * design_flow * G * efficiency * (365 * 24) * (FIT + market_price)

/-- Loop body of get_optimum_pipe_for_head: builds the pipe dictionary for
one table row.  If the PVC constraints on head and diameter hold, PVC is
used; otherwise both DI and GRP costs are computed and the strictly more
expensive GRP is replaced by DI (ties keep GRP). -/
def processRow (ops : MathOps) (head design_flow penstock_length FIT efficiency market_price interest : ℚ)
    (r : PipeRow) : Pipe :=
  if head ≤ PVC_Constraint_MaxHead ∧ r.diameter ≤ PVC_Constraint_MaxDiameter then
    let friction_coeff := get_friction_coeff ops design_flow r.diameter 0 "PVC"
    let head_loss_pvc := get_head_loss friction_coeff penstock_length r.diameter design_flow
    let annual_capital_cost_pvc := penstock_length * r.pvc * interest
    let annual_head_loss_cost_pvc :=
      head_loss_pvc * design_flow * G * efficiency * (365 * 24) * (FIT + market_price)
    { diameter := r.diameter
      material := "PVC"
      head_loss := head_loss_pvc
      annual_head_loss_cost := annual_head_loss_cost_pvc
      annual_capital_cost := annual_capital_cost_pvc
      total_annual_cost := annual_capital_cost_pvc + annual_head_loss_cost_pvc }
  else
    let friction_coeff_di := get_friction_coeff ops design_flow r.diameter E_DI "DI"
    let head_loss_di := get_head_loss friction_coeff_di penstock_length r.diameter design_flow
    let annual_capital_cost_di := penstock_length * r.di * interest
    let annual_head_loss_cost_di :=
      head_loss_di * design_flow * G * efficiency * (365 * 24) * (FIT + market_price)
    let total_annual_cost_di := annual_capital_cost_di + annual_head_loss_cost_di
    let friction_coeff_grp := get_friction_coeff ops design_flow r.diameter E_GRP "GRP"
    let head_loss_grp := get_head_loss friction_coeff_grp penstock_length r.diameter design_flow
    let annual_capital_cost_grp := penstock_length * r.grp * interest
    let annual_head_loss_cost_grp :=
      head_loss_grp * design_flow * G * efficiency * (365 * 24) * (FIT + market_price)
    let total_annual_cost_grp := annual_capital_cost_grp + annual_head_loss_cost_grp
    if total_annual_cost_grp > total_annual_cost_di then
      { diameter := r.diameter
        material := "DI"
        head_loss := head_loss_di
        annual_head_loss_cost := annual_head_loss_cost_di
        annual_capital_cost := annual_capital_cost_di
        total_annual_cost := total_annual_cost_di }
    else
      { diameter := r.diameter
        material := "GRP"
        head_loss := head_loss_grp
        annual_head_loss_cost := annual_head_loss_cost_grp
        annual_capital_cost := annual_capital_cost_grp
        total_annual_cost := total_annual_cost_grp }

/-- Embedding of get_optimum_pipe_for_head from hydro_utils.py: fold the
per-row pipe over the table, replacing the running optimum only when the
row's total annual cost is strictly smaller. -/
def get_optimum_pipe_for_head (ops : MathOps) (head : ℚ) (pipe_table : List PipeRow)
    (design_flow penstock_length FIT efficiency market_price interest : ℚ) : Pipe :=
  pipe_table.foldl
    (fun optimum_pipe row =>
      let pipe := processRow ops head design_flow penstock_length FIT efficiency market_price interest row
      if pipe.total_annual_cost < optimum_pipe.total_annual_cost then pipe else optimum_pipe)
    initOptimum

/-- The comparison step of the optimizer's fold, abstracted over the per-row
pipe function; get_optimum_pipe_for_head is definitionally a foldl of this
step over the table. -/
def selectStep (f : PipeRow → Pipe) (o : Pipe) (r : PipeRow) : Pipe :=
  if (f r).total_annual_cost < o.total_annual_cost then f r else o

/- Head sweeper and per-head economics, from EPIC.py. -/

/-- Maximum head, EPIC.py line 100: max_H = tan(rad(slope)) * cl. -/
def max_H (ops : MathOps) (slope cl : ℚ) : ℚ :=
  ops.tan_deg slope * cl

/-- Default head list, EPIC.py line 195: range(1, int(ceil(max_H))), i.e.
the integers 1, 2, ..., ceil(max_H) - 1. -/
def default_heads (mh : ℚ) : List ℤ :=
  (List.range' 1 (⌈mh⌉ - 1).toNat).map Int.ofNat

/-- Validation of caller-supplied heads, EPIC.py lines 185-192: each head is
rejected (the program exits) when it exceeds max_H, otherwise the list is
used exactly as supplied. -/
def validate_heads (hs : List ℤ) (mh : ℚ) : Except DomainError (List ℤ) :=
  if hs.all (fun h => decide ((h : ℚ) ≤ mh)) then Except.ok hs
  else Except.error DomainError.headTooLarge

/-- Total penstock cost, EPIC.py line 276. -/
def total_penstock_cost (annual_capital_cost interest : ℚ) : ℚ :=
  annual_capital_cost / interest

/-- Total project cost, EPIC.py line 282. -/
def total_project_cost (penstock_cost : ℚ) : ℚ :=
  penstock_cost / PenFrac

/-- Payback period, EPIC.py line 301. -/
def payback_period (project_cost annual_revenue : ℚ) : ℚ :=
  project_cost / annual_revenue

/-- Cost per installed kW, EPIC.py line 307. -/
def cost_per_kw (project_cost capacity : ℚ) : ℚ :=
  project_cost / capacity

/-- Annual return on investment in percent, EPIC.py line 313. -/
def annual_return_on_investment (annual_revenue project_cost : ℚ) : ℚ :=
  annual_revenue / project_cost * 100

/- Spec-side definitions, for refinement claims comparing the spec's stated
formulas with the source. -/

/-- Friction update as worded by the spec for DI/GRP:
f = (1 + 2 * log10(E / (3.7 * D) + 2.51 / (Re * sqrt(f)))) ^ 2. -/
def spec_colebrook_update (ops : MathOps) (E D Rn f : ℚ) : ℚ :=
  (1 + 2 * ops.log10 (E / (3.7 * D) + 2.51 / (Rn * ops.sqrt f))) ^ 2

/-- Iterates of the spec-worded friction update, seeded at 1. -/
def spec_frictionIter (ops : MathOps) (E D Rn : ℚ) : ℕ → ℚ
  | 0 => 1
  | n + 1 => spec_colebrook_update ops E D Rn (spec_frictionIter ops E D Rn n)

/-- The DI/GRP friction coefficient exactly as the claim words it: seed 1,
exactly 100 rounds of the update with relative-roughness term E / (3.7 * D),
final iterate returned. -/
def spec_friction_100 (ops : MathOps) (Q D E : ℚ) : ℚ :=
  spec_frictionIter ops E D (get_renaulds_number Q D) 100

/-- Friction update as the source actually computes it, in the spec's
algebraic normal form: (1 + 2 * log10(E * D / 3.7 + 2.51 / (Re * sqrt f)))^2
(the source's E / 3.7 * D groups as (E / 3.7) * D = E * D / 3.7). -/
def amended_colebrook_update (ops : MathOps) (E D Rn f : ℚ) : ℚ :=
  (1 + 2 * ops.log10 (E * D / 3.7 + 2.51 / (Rn * ops.sqrt f))) ^ 2

/-- Iterates of the amended friction update, seeded at 1. -/
def amended_frictionIter (ops : MathOps) (E D Rn : ℚ) : ℕ → ℚ
  | 0 => 1
  | n + 1 => amended_colebrook_update ops E D Rn (amended_frictionIter ops E D Rn n)

/-- The DI/GRP friction coefficient as amended: seed 1, exactly 99 rounds of
the update with roughness term E * D / 3.7, final iterate returned. -/
def spec_friction_99 (ops : MathOps) (Q D E : ℚ) : ℚ :=
  amended_frictionIter ops E D (get_renaulds_number Q D) 99

/- Concrete MathOps instantiations used by counterexamples and witnesses. -/

/-- MathOps instantiation whose log10 is constantly 0 and whose fractional
power is constantly 0; under it every DI/GRP friction iterate equals 1. -/
def zeroLogOps : MathOps :=
  { sqrt := fun x => x
    log10 := fun _ => 0
    pow025 := fun _ => 0
    tan_deg := fun _ => 0 }

/-- MathOps instantiation with identity log10, constant sqrt 1, and tan 1;
under it the friction iterates stabilize after the first round. -/
def probeOps : MathOps :=
  { sqrt := fun _ => 1
    log10 := fun x => x
    pow025 := fun x => x
    tan_deg := fun _ => 1 }

/- Helper lemmas. -/

/-- On the triangle shape, area_fraction computes triangle_area. -/
lemma area_fraction_1 (cl Hz : ℚ) : area_fraction 1 cl Hz = triangle_area cl Hz := by
  simp [area_fraction, get_area, Except.toOption]

/-- On the rectangle shape, area_fraction computes rectangle_area. -/
lemma area_fraction_2 (cl Hz : ℚ) : area_fraction 2 cl Hz = rectangle_area cl Hz := by
  simp [area_fraction, get_area, Except.toOption]

/-- On the pentagon shape, area_fraction computes pentagon_area. -/
lemma area_fraction_3 (cl Hz : ℚ) : area_fraction 3 cl Hz = pentagon_area cl Hz := by
  simp [area_fraction, get_area, Except.toOption]

/-- On the hexagon shape, area_fraction computes hexagon_area. -/
lemma area_fraction_4 (cl Hz : ℚ) : area_fraction 4 cl Hz = hexagon_area cl Hz := by
  simp [area_fraction, get_area, Except.toOption]

/-- Triangle area fraction is non-increasing in the horizontal offset. -/
lemma triangle_area_mono (cl h1 h2 : ℚ) (hcl : 0 < cl) (h0 : 0 ≤ h1) (h12 : h1 ≤ h2) :
    triangle_area cl h2 ≤ triangle_area cl h1 := by
  have hK : (0:ℚ) < cl ^ 2 * 0.5 := by positivity
  unfold triangle_area
  rw [div_le_div_iff_of_pos_right hK]
  nlinarith

/-- Triangle area fraction is 1 at offset 0 and 0 at offset cl. -/
lemma triangle_area_boundary (cl : ℚ) (hcl : 0 < cl) :
    triangle_area cl 0 = 1 ∧ triangle_area cl cl = 0 := by
  have hK : (cl ^ 2 * 0.5 : ℚ) ≠ 0 := by positivity
  constructor
  · unfold triangle_area
    rw [div_eq_one_iff_eq hK]; ring
  · unfold triangle_area
    rw [div_eq_zero_iff]; left; ring

/-- Rectangle area fraction is non-increasing in the horizontal offset. -/
lemma rectangle_area_mono (cl h1 h2 : ℚ) (hcl : 0 < cl) (h12 : h1 ≤ h2) :
    rectangle_area cl h2 ≤ rectangle_area cl h1 := by
  have hK : (0:ℚ) < cl ^ 2 * 0.5 := by positivity
  unfold rectangle_area
  rw [div_le_div_iff_of_pos_right hK]
  nlinarith

/-- Rectangle area fraction is 1 at offset 0 and 0 at offset cl. -/
lemma rectangle_area_boundary (cl : ℚ) (hcl : 0 < cl) :
    rectangle_area cl 0 = 1 ∧ rectangle_area cl cl = 0 := by
  have hK : (cl ^ 2 * 0.5 : ℚ) ≠ 0 := by positivity
  constructor
  · unfold rectangle_area
    rw [div_eq_one_iff_eq hK]; ring
  · unfold rectangle_area
    rw [div_eq_zero_iff]; left; ring

/-- Pentagon area fraction is non-increasing in the horizontal offset,
across both branches. -/
lemma pentagon_area_mono (cl h1 h2 : ℚ) (hcl : 0 < cl) (h0 : 0 ≤ h1) (h12 : h1 ≤ h2)
    (h2cl : h2 ≤ cl) :
    pentagon_area cl h2 ≤ pentagon_area cl h1 := by
  have hK : (0:ℚ) < 3 * cl ^ 2 / 8 := by positivity
  unfold pentagon_area
  by_cases hb2 : h2 ≤ cl / 2
  · have hb1 : h1 ≤ cl / 2 := le_trans h12 hb2
    rw [if_pos hb1, if_pos hb2]
    unfold pentagon_area_rect
    rw [div_le_div_iff_of_pos_right hK]
    nlinarith
  · by_cases hb1 : h1 ≤ cl / 2
    · rw [if_pos hb1, if_neg hb2]
      unfold pentagon_area_rect pentagon_area_tri
      rw [div_le_div_iff_of_pos_right hK]
      nlinarith [mul_nonneg (by linarith : (0:ℚ) ≤ h2 - cl/2) (by linarith : (0:ℚ) ≤ cl - h2),
                 mul_nonneg (by linarith : (0:ℚ) ≤ cl/2 - h1) hcl.le]
    · rw [if_neg hb1, if_neg hb2]
      unfold pentagon_area_tri
      rw [div_le_div_iff_of_pos_right hK]
      nlinarith [mul_nonneg (by linarith : (0:ℚ) ≤ h2 - h1) (by linarith : (0:ℚ) ≤ 2*cl - h1 - h2)]

/-- Pentagon area fraction is 1 at offset 0 and 0 at offset cl. -/
lemma pentagon_area_boundary (cl : ℚ) (hcl : 0 < cl) :
    pentagon_area cl 0 = 1 ∧ pentagon_area cl cl = 0 := by
  have hK : (3 * cl ^ 2 / 8 : ℚ) ≠ 0 := by positivity
  constructor
  · unfold pentagon_area
    rw [if_pos (by linarith : (0:ℚ) ≤ cl / 2)]
    unfold pentagon_area_rect
    rw [div_eq_one_iff_eq hK]; ring
  · unfold pentagon_area
    rw [if_neg (not_le.mpr (by linarith : cl / 2 < cl))]
    unfold pentagon_area_tri
    rw [div_eq_zero_iff]; left; ring

/-- Hexagon area fraction is non-increasing in the horizontal offset,
across all three branches. -/
lemma hexagon_area_mono (cl h1 h2 : ℚ) (hcl : 0 < cl) (h0 : 0 ≤ h1) (h12 : h1 ≤ h2)
    (h2cl : h2 ≤ cl) :
    hexagon_area cl h2 ≤ hexagon_area cl h1 := by
  have hK : (0:ℚ) < 2 * cl ^ 2 / 9 := by positivity
  unfold hexagon_area
  by_cases hb1 : h1 ≤ cl / 3
  · by_cases hb2 : h2 ≤ cl / 3
    · rw [if_pos hb1, if_pos hb2]
      unfold hexagon_area_1
      rw [div_le_div_iff_of_pos_right hK]
      nlinarith
    · by_cases hb2' : h2 ≤ 2 * cl / 3
      · rw [if_pos hb1, if_neg hb2, if_pos (And.intro (lt_of_not_le hb2) hb2')]
        unfold hexagon_area_1 hexagon_area_2
        rw [div_le_div_iff_of_pos_right hK]
        nlinarith [mul_nonneg (by linarith : (0:ℚ) ≤ h2 - cl/3) (by linarith : (0:ℚ) ≤ cl/3),
                   mul_nonneg (by linarith : (0:ℚ) ≤ cl/3 - h1) (by linarith : (0:ℚ) ≤ cl/3 + h1)]
      · rw [if_pos hb1, if_neg hb2, if_neg (fun hc : cl / 3 < h2 ∧ h2 ≤ 2 * cl / 3 => hb2' hc.2)]
        unfold hexagon_area_1 hexagon_area_3
        rw [div_le_div_iff_of_pos_right hK]
        nlinarith [mul_nonneg (by linarith : (0:ℚ) ≤ h2 - 2*cl/3) (by linarith : (0:ℚ) ≤ cl - h2),
                   mul_nonneg (by linarith : (0:ℚ) ≤ cl/3 - h1) (by linarith : (0:ℚ) ≤ cl/3 + h1)]
  · have hb1lt : cl / 3 < h1 := lt_of_not_le hb1
    have hb2not : ¬h2 ≤ cl / 3 := not_le.mpr (lt_of_lt_of_le hb1lt h12)
    by_cases hb1' : h1 ≤ 2 * cl / 3
    · by_cases hb2' : h2 ≤ 2 * cl / 3
      · rw [if_neg hb1, if_pos (And.intro hb1lt hb1'), if_neg hb2not,
            if_pos (And.intro (lt_of_not_le hb2not) hb2')]
        unfold hexagon_area_2
        rw [div_le_div_iff_of_pos_right hK]
        nlinarith [mul_nonneg (by linarith : (0:ℚ) ≤ h2 - h1) (by linarith : (0:ℚ) ≤ cl/3)]
      · rw [if_neg hb1, if_pos (And.intro hb1lt hb1'), if_neg hb2not,
            if_neg (fun hc : cl / 3 < h2 ∧ h2 ≤ 2 * cl / 3 => hb2' hc.2)]
        unfold hexagon_area_2 hexagon_area_3
        rw [div_le_div_iff_of_pos_right hK]
        nlinarith [mul_nonneg (by linarith : (0:ℚ) ≤ h2 - 2*cl/3) (by linarith : (0:ℚ) ≤ cl - h2),
                   mul_nonneg (by linarith : (0:ℚ) ≤ 2*cl/3 - h1) (by linarith : (0:ℚ) ≤ cl/3)]
    · have hb2' : ¬h2 ≤ 2 * cl / 3 := fun hc => hb1' (le_trans h12 hc)
      rw [if_neg hb1, if_neg (fun hc : cl / 3 < h1 ∧ h1 ≤ 2 * cl / 3 => hb1' hc.2), if_neg hb2not,
          if_neg (fun hc : cl / 3 < h2 ∧ h2 ≤ 2 * cl / 3 => hb2' hc.2)]
      unfold hexagon_area_3
      rw [div_le_div_iff_of_pos_right hK]
      nlinarith [mul_nonneg (by linarith : (0:ℚ) ≤ h2 - h1) (by linarith : (0:ℚ) ≤ 2*cl - h1 - h2)]

/-- Hexagon area fraction is 1 at offset 0 and 0 at offset cl. -/
lemma hexagon_area_boundary (cl : ℚ) (hcl : 0 < cl) :
    hexagon_area cl 0 = 1 ∧ hexagon_area cl cl = 0 := by
  have hK : (2 * cl ^ 2 / 9 : ℚ) ≠ 0 := by positivity
  constructor
  · unfold hexagon_area
    rw [if_pos (by linarith : (0:ℚ) ≤ cl / 3)]
    unfold hexagon_area_1
    rw [div_eq_one_iff_eq hK]; ring
  · unfold hexagon_area
    rw [if_neg (not_le.mpr (by linarith : cl / 3 < cl)),
        if_neg (fun hc : cl / 3 < cl ∧ cl ≤ 2 * cl / 3 =>
          absurd hc.2 (not_le.mpr (by linarith : 2 * cl / 3 < cl)))]
    unfold hexagon_area_3
    rw [div_eq_zero_iff]; left; ring

/-- Under zeroLogOps every DI/GRP friction iterate equals 1. -/
lemma frictionIter_zeroLog (E D Rn : ℚ) : ∀ n, frictionIter zeroLogOps E D Rn n = 1
  | 0 => rfl
  | n + 1 => by
    show colebrook_update zeroLogOps E D Rn (frictionIter zeroLogOps E D Rn n) = 1
    norm_num [colebrook_update, zeroLogOps]

/-- The friction update depends on its seed only through ops.sqrt. -/
lemma colebrook_update_sqrt_congr (ops : MathOps) (E D Rn : ℚ) {f g : ℚ}
    (h : ops.sqrt f = ops.sqrt g) :
    colebrook_update ops E D Rn f = colebrook_update ops E D Rn g := by
  unfold colebrook_update; rw [h]

/-- When ops.sqrt is constant, the friction iterates stabilize after one
round. -/
lemma frictionIter_const_sqrt (ops : MathOps) (hs : ∀ x y, ops.sqrt x = ops.sqrt y)
    (E D Rn : ℚ) : ∀ n, frictionIter ops E D Rn (n + 1) = frictionIter ops E D Rn 1 := by
  intro n
  induction n with
  | zero => rfl
  | succ m ih =>
    show colebrook_update ops E D Rn (frictionIter ops E D Rn (m + 1)) = _
    rw [colebrook_update_sqrt_congr ops E D Rn (hs (frictionIter ops E D Rn (m + 1)) 1)]
    rfl

/-- The spec-worded friction update depends on its seed only through
ops.sqrt. -/
lemma spec_colebrook_update_sqrt_congr (ops : MathOps) (E D Rn : ℚ) {f g : ℚ}
    (h : ops.sqrt f = ops.sqrt g) :
    spec_colebrook_update ops E D Rn f = spec_colebrook_update ops E D Rn g := by
  unfold spec_colebrook_update; rw [h]

/-- When ops.sqrt is constant, the spec-worded friction iterates stabilize
after one round. -/
lemma spec_frictionIter_const_sqrt (ops : MathOps) (hs : ∀ x y, ops.sqrt x = ops.sqrt y)
    (E D Rn : ℚ) : ∀ n, spec_frictionIter ops E D Rn (n + 1) = spec_frictionIter ops E D Rn 1 := by
  intro n
  induction n with
  | zero => rfl
  | succ m ih =>
    show spec_colebrook_update ops E D Rn (spec_frictionIter ops E D Rn (m + 1)) = _
    rw [spec_colebrook_update_sqrt_congr ops E D Rn (hs (spec_frictionIter ops E D Rn (m + 1)) 1)]
    rfl

/-- The source's iterate agrees with the amended (spec normal form) iterate
at every round: 1 - (-2 x) = 1 + 2 x and (E / 3.7) * D = E * D / 3.7. -/
lemma frictionIter_eq_amended (ops : MathOps) (E D Rn : ℚ) :
    ∀ n, frictionIter ops E D Rn n = amended_frictionIter ops E D Rn n := by
  intro n
  induction n with
  | zero => rfl
  | succ m ih =>
    show colebrook_update ops E D Rn (frictionIter ops E D Rn m)
        = amended_colebrook_update ops E D Rn (amended_frictionIter ops E D Rn m)
    rw [← ih]
    unfold colebrook_update amended_colebrook_update
    rw [show (E / 3.7 * D : ℚ) = E * D / 3.7 by ring]
    ring

/-- Under zeroLogOps the DI friction coefficient is 1. -/
lemma gfc_zeroLog_DI (Q D E : ℚ) : get_friction_coeff zeroLogOps Q D E "DI" = 1 := by
  simp [get_friction_coeff, frictionIter_zeroLog]

/-- Under zeroLogOps the GRP friction coefficient is 1. -/
lemma gfc_zeroLog_GRP (Q D E : ℚ) : get_friction_coeff zeroLogOps Q D E "GRP" = 1 := by
  simp [get_friction_coeff, frictionIter_zeroLog]

/-- The optimizer is definitionally a foldl of selectStep over the table. -/
lemma get_optimum_eq_foldl (ops : MathOps) (head : ℚ) (table : List PipeRow)
    (df pl FIT eff mp int : ℚ) :
    get_optimum_pipe_for_head ops head table df pl FIT eff mp int
      = table.foldl (selectStep (processRow ops head df pl FIT eff mp int)) initOptimum := rfl

/-- Characterization of the strict-comparison fold: either no row beats the
initial value and the initial value is returned, or the result is the
earliest row whose cost is minimal (its cost is below the initial value,
at most every row's cost, and strictly below every earlier row's cost). -/
lemma foldl_select_spec (f : PipeRow → Pipe) :
    ∀ (table : List PipeRow) (init : Pipe),
      (List.foldl (selectStep f) init table = init
          ∧ ∀ r ∈ table, init.total_annual_cost ≤ (f r).total_annual_cost)
      ∨ (∃ n : ℕ, ∃ hn : n < table.length,
          List.foldl (selectStep f) init table = f (table.get ⟨n, hn⟩)
          ∧ (List.foldl (selectStep f) init table).total_annual_cost < init.total_annual_cost
          ∧ (∀ r ∈ table,
              (List.foldl (selectStep f) init table).total_annual_cost ≤ (f r).total_annual_cost)
          ∧ ∀ m : ℕ, ∀ hm : m < table.length, m < n →
              (List.foldl (selectStep f) init table).total_annual_cost
                < (f (table.get ⟨m, hm⟩)).total_annual_cost) := by
  intro table
  induction table with
  | nil =>
    intro init
    left
    exact ⟨rfl, by simp⟩
  | cons r t ih =>
    intro init
    rw [List.foldl_cons]
    by_cases hstep : (f r).total_annual_cost < init.total_annual_cost
    · rw [show selectStep f init r = f r from if_pos hstep]
      rcases ih (f r) with ⟨heq, hall⟩ | ⟨n, hn, heq, hlt, hall, hfirst⟩
      · right
        refine ⟨0, by simp, ?_, ?_, ?_, ?_⟩
        · rw [heq]; rfl
        · rw [heq]; exact hstep
        · intro s hs
          rcases List.mem_cons.mp hs with hrfl | hmem
          · rw [heq, hrfl]
          · rw [heq]; exact hall s hmem
        · intro m hm hm0; omega
      · right
        refine ⟨n + 1, by simpa using hn, ?_, ?_, ?_, ?_⟩
        · rw [heq]; rfl
        · exact lt_trans hlt hstep
        · intro s hs
          rcases List.mem_cons.mp hs with hrfl | hmem
          · rw [hrfl]; exact le_of_lt hlt
          · exact hall s hmem
        · intro m hm hmn
          match m with
          | 0 => exact hlt
          | Nat.succ m0 => exact hfirst m0 (by omega) (by omega)
    · rw [show selectStep f init r = init from if_neg hstep]
      have hinitle : init.total_annual_cost ≤ (f r).total_annual_cost := le_of_not_lt hstep
      rcases ih init with ⟨heq, hall⟩ | ⟨n, hn, heq, hlt, hall, hfirst⟩
      · left
        refine ⟨heq, ?_⟩
        intro s hs
        rcases List.mem_cons.mp hs with hrfl | hmem
        · rw [hrfl]; exact hinitle
        · exact hall s hmem
      · right
        refine ⟨n + 1, by simpa using hn, ?_, ?_, ?_, ?_⟩
        · rw [heq]; rfl
        · exact hlt
        · intro s hs
          rcases List.mem_cons.mp hs with hrfl | hmem
          · rw [hrfl]; exact le_of_lt (lt_of_lt_of_le hlt hinitle)
          · exact hall s hmem
        · intro m hm hmn
          match m with
          | 0 => exact lt_of_lt_of_le hlt hinitle
          | Nat.succ m0 => exact hfirst m0 (by omega) (by omega)

/- Claim theorems. -/

/-- Claim C1 (amended): for every pipe table and all parameters, the
selection returned by get_optimum_pipe_for_head has a total annual cost at
most that of every row it evaluated; provided some evaluated row's cost is
strictly below the initial sentinel cost 999999999.9, the returned
selection is the earliest row achieving the minimum (its cost is strictly
below every earlier row's cost, replacement happening only under strict <);
otherwise the initial sentinel selection is returned unchanged. -/
theorem C1_optimum_min_cost_first_wins (ops : MathOps) (head df pl FIT eff mp int : ℚ)
    (table : List PipeRow) :
    (∀ r ∈ table,
        (get_optimum_pipe_for_head ops head table df pl FIT eff mp int).total_annual_cost
          ≤ (processRow ops head df pl FIT eff mp int r).total_annual_cost)
    ∧ ((∃ r ∈ table,
          (processRow ops head df pl FIT eff mp int r).total_annual_cost
            < initOptimum.total_annual_cost) →
        ∃ n : ℕ, ∃ hn : n < table.length,
          get_optimum_pipe_for_head ops head table df pl FIT eff mp int
              = processRow ops head df pl FIT eff mp int (table.get ⟨n, hn⟩)
            ∧ ∀ m : ℕ, ∀ hm : m < table.length, m < n →
                (get_optimum_pipe_for_head ops head table df pl FIT eff mp int).total_annual_cost
                  < (processRow ops head df pl FIT eff mp int (table.get ⟨m, hm⟩)).total_annual_cost)
    ∧ ((∀ r ∈ table,
          ¬((processRow ops head df pl FIT eff mp int r).total_annual_cost
            < initOptimum.total_annual_cost)) →
        get_optimum_pipe_for_head ops head table df pl FIT eff mp int = initOptimum) := by
  rw [get_optimum_eq_foldl]
  rcases foldl_select_spec (processRow ops head df pl FIT eff mp int) table initOptimum with
    ⟨heq, hall⟩ | ⟨n, hn, heq, hlt, hall, hfirst⟩
  · refine ⟨?_, ?_, fun _ => heq⟩
    · intro r hr; rw [heq]; exact hall r hr
    · rintro ⟨r, hr, hrlt⟩
      exact absurd (hall r hr) (not_le.mpr hrlt)
  · refine ⟨hall, ?_, ?_⟩
    · intro _
      exact ⟨n, hn, heq, fun m hm hmn => hfirst m hm hmn⟩
    · intro hnone
      exact absurd (heq ▸ hlt) (hnone (table.get ⟨n, hn⟩) (table.get_mem n hn))

/-- Witness for C1: a concrete one-row table whose row cost (1) is below
the sentinel, so the optimizer returns that earliest minimal row. -/
theorem C1_witness :
    ((processRow zeroLogOps 0 0 1 0 0 0 1 ⟨0.1, 1, 1, 1⟩).total_annual_cost
        < initOptimum.total_annual_cost)
    ∧ ∃ n : ℕ, ∃ hn : n < ([⟨0.1, 1, 1, 1⟩] : List PipeRow).length,
        get_optimum_pipe_for_head zeroLogOps 0 [⟨0.1, 1, 1, 1⟩] 0 1 0 0 0 1
            = processRow zeroLogOps 0 0 1 0 0 0 1 (([⟨0.1, 1, 1, 1⟩] : List PipeRow).get ⟨n, hn⟩)
          ∧ ∀ m : ℕ, ∀ hm : m < ([⟨0.1, 1, 1, 1⟩] : List PipeRow).length, m < n →
              (get_optimum_pipe_for_head zeroLogOps 0 [⟨0.1, 1, 1, 1⟩] 0 1 0 0 0 1).total_annual_cost
                < (processRow zeroLogOps 0 0 1 0 0 0 1
                    (([⟨0.1, 1, 1, 1⟩] : List PipeRow).get ⟨m, hm⟩)).total_annual_cost := by
  have hrow : (processRow zeroLogOps 0 0 1 0 0 0 1 ⟨0.1, 1, 1, 1⟩).total_annual_cost
      < initOptimum.total_annual_cost := by
    norm_num [processRow, initOptimum, PVC_Constraint_MaxHead, PVC_Constraint_MaxDiameter,
      get_friction_coeff, get_head_loss, get_renaulds_number, zeroLogOps, G, V_H2O, mathPi]
  exact ⟨hrow, (C1_optimum_min_cost_first_wins zeroLogOps 0 0 1 0 0 0 1 [⟨0.1, 1, 1, 1⟩]).2.1
    ⟨⟨0.1, 1, 1, 1⟩, List.mem_singleton.mpr rfl, hrow⟩⟩

/-- Counterexample for C1 as stated: with a one-row table whose only row
costs 10 ^ 10 (above the sentinel 999999999.9), the optimizer returns the
initial sentinel selection, not the (unique, hence earliest minimal) row,
so the selection returned is not a row of the table. -/
theorem C1_counterexample :
    get_optimum_pipe_for_head zeroLogOps 0 [⟨0.1, 10 ^ 10, 1, 1⟩] 0 1 0 0 0 1 = initOptimum
    ∧ initOptimum ≠ processRow zeroLogOps 0 0 1 0 0 0 1 ⟨0.1, 10 ^ 10, 1, 1⟩ := by
  constructor
  · rw [get_optimum_eq_foldl, List.foldl_cons, List.foldl_nil]
    unfold selectStep
    rw [if_neg]
    norm_num [processRow, initOptimum, PVC_Constraint_MaxHead, PVC_Constraint_MaxDiameter,
      get_friction_coeff, get_head_loss, get_renaulds_number, zeroLogOps, G, V_H2O, mathPi]
  · intro hcontra
    have hd := congrArg Pipe.diameter hcontra
    norm_num [processRow, initOptimum, PVC_Constraint_MaxHead, PVC_Constraint_MaxDiameter] at hd

/-- Claim C2 (amended): for Ductile Iron and Glass-Reinforced Plastic, the
friction coefficient is the fixed-point iteration seeded at 1 run for
exactly 99 rounds (the source's range(1, 100) loop) with the update
f = (1 + 2 * log10(E * D / 3.7 + 2.51 / (Re * sqrt f))) ^ 2 — the relative
roughness term is (E / 3.7) * D, not E / (3.7 * D) — and the final iterate
is returned. -/
theorem C2_friction_iteration (ops : MathOps) (Q D E : ℚ) :
    get_friction_coeff ops Q D E "DI" = spec_friction_99 ops Q D E
    ∧ get_friction_coeff ops Q D E "GRP" = spec_friction_99 ops Q D E := by
  constructor <;>
  · simp only [get_friction_coeff, spec_friction_99]
    norm_num
    exact frictionIter_eq_amended ops E D (get_renaulds_number Q D) 99

/-- Counterexample for C2 as stated: at Q = 1, D = 2, E = 3.7 under probeOps
(identity log10, constant sqrt) the source's coefficient differs from the
claim's 100-round iteration with roughness term E / (3.7 * D). -/
theorem C2_counterexample :
    get_friction_coeff probeOps 1 2 3.7 "DI" ≠ spec_friction_100 probeOps 1 2 3.7 := by
  have h1 : get_friction_coeff probeOps 1 2 3.7 "DI"
      = frictionIter probeOps 3.7 2 (get_renaulds_number 1 2) 99 := by
    simp [get_friction_coeff]
  rw [h1, show (99:ℕ) = 98 + 1 from rfl,
    frictionIter_const_sqrt probeOps (fun _ _ => rfl) 3.7 2 (get_renaulds_number 1 2) 98]
  show _ ≠ spec_frictionIter probeOps 3.7 2 (get_renaulds_number 1 2) 100
  rw [show (100:ℕ) = 99 + 1 from rfl,
    spec_frictionIter_const_sqrt probeOps (fun _ _ => rfl) 3.7 2 (get_renaulds_number 1 2) 99]
  show colebrook_update probeOps 3.7 2 (get_renaulds_number 1 2)
        (frictionIter probeOps 3.7 2 (get_renaulds_number 1 2) 0)
      ≠ spec_colebrook_update probeOps 3.7 2 (get_renaulds_number 1 2)
        (spec_frictionIter probeOps 3.7 2 (get_renaulds_number 1 2) 0)
  norm_num [colebrook_update, spec_colebrook_update, probeOps, get_renaulds_number, mathPi,
    V_H2O, frictionIter, spec_frictionIter]

/-- Claim C3: for every table row, the optimizer uses PVC exactly when
head <= 120 and diameter <= 0.5; otherwise it computes the total annual
cost of both Ductile Iron and GRP and keeps the cheaper one (DI only when
GRP is strictly more expensive), so the row's recorded cost is the minimum
of the two. -/
theorem C3_pvc_eligibility (ops : MathOps) (head df pl FIT eff mp int : ℚ) (r : PipeRow) :
    (processRow ops head df pl FIT eff mp int r).material
        = (if head ≤ PVC_Constraint_MaxHead ∧ r.diameter ≤ PVC_Constraint_MaxDiameter then "PVC"
           else if rowCostGRP ops df pl FIT eff mp int r > rowCostDI ops df pl FIT eff mp int r
           then "DI"
           else "GRP")
    ∧ (processRow ops head df pl FIT eff mp int r).total_annual_cost
        = (if head ≤ PVC_Constraint_MaxHead ∧ r.diameter ≤ PVC_Constraint_MaxDiameter then
             rowCostPVC ops df pl FIT eff mp int r
           else min (rowCostDI ops df pl FIT eff mp int r) (rowCostGRP ops df pl FIT eff mp int r)) := by
  by_cases h : head ≤ PVC_Constraint_MaxHead ∧ r.diameter ≤ PVC_Constraint_MaxDiameter
  · unfold processRow rowCostPVC
    simp [if_pos h]
  · unfold processRow rowCostDI rowCostGRP
    by_cases hgt : rowCostGRP ops df pl FIT eff mp int r > rowCostDI ops df pl FIT eff mp int r
    · unfold rowCostGRP rowCostDI at hgt
      simp only [if_neg h, if_pos hgt]
      refine ⟨trivial, ?_⟩
      exact (min_eq_left (le_of_lt hgt)).symm
    · unfold rowCostGRP rowCostDI at hgt
      simp only [if_neg h, if_neg hgt]
      refine ⟨trivial, ?_⟩
      exact (min_eq_right (le_of_not_lt hgt)).symm

/-- Claim C4: the per-head economics are computed exactly as stated:
capacity = (head - head_loss) * Q * 9.81 * efficiency * 1000 / 1000;
annual revenue = capacity * (365 * 24) * (tariff + market price) *
reliability - interest * total project cost; payback period = total / revenue;
cost per kW = total / capacity; ROI percent = revenue / total * 100. -/
theorem C4_economics_formulas (head head_loss Q efficiency C FIT P R interest total capacity
    revenue : ℚ) :
    get_scheme_capacity head head_loss Q efficiency
        = (head - head_loss) * Q * 9.81 * efficiency * 1000 / 1000
    ∧ get_scheme_annual_revenue C FIT P R interest total
        = C * (365 * 24) * (FIT + P) * R - interest * total
    ∧ payback_period total revenue = total / revenue
    ∧ cost_per_kw total capacity = total / capacity
    ∧ annual_return_on_investment revenue total = revenue / total * 100 :=
  ⟨rfl, rfl, rfl, rfl, rfl⟩

/-- Claim C5: for each supported shape (1 = Triangle, 2 = Rectangle,
3 = Pentagon, 4 = Hexagon) and every catchment length > 0, the area
fraction is non-increasing in the horizontal offset over [0, cl], equals 1
at offset 0 and equals 0 at offset cl. -/
theorem C5_area_fraction_monotone (t : ℤ) (cl h1 h2 : ℚ) (ht1 : 1 ≤ t) (ht4 : t ≤ 4)
    (hcl : 0 < cl) (h0 : 0 ≤ h1) (h12 : h1 ≤ h2) (h2cl : h2 ≤ cl) :
    area_fraction t cl h2 ≤ area_fraction t cl h1
    ∧ area_fraction t cl 0 = 1 ∧ area_fraction t cl cl = 0 := by
  interval_cases t
  · simp only [area_fraction_1]
    exact ⟨triangle_area_mono cl h1 h2 hcl h0 h12,
           (triangle_area_boundary cl hcl).1, (triangle_area_boundary cl hcl).2⟩
  · simp only [area_fraction_2]
    exact ⟨rectangle_area_mono cl h1 h2 hcl h12,
           (rectangle_area_boundary cl hcl).1, (rectangle_area_boundary cl hcl).2⟩
  · simp only [area_fraction_3]
    exact ⟨pentagon_area_mono cl h1 h2 hcl h0 h12 h2cl,
           (pentagon_area_boundary cl hcl).1, (pentagon_area_boundary cl hcl).2⟩
  · simp only [area_fraction_4]
    exact ⟨hexagon_area_mono cl h1 h2 hcl h0 h12 h2cl,
           (hexagon_area_boundary cl hcl).1, (hexagon_area_boundary cl hcl).2⟩

/-- Witness for C5 at shape 4 (hexagon), cl = 3, offsets 1 <= 2. -/
theorem C5_witness :
    ((1:ℤ) ≤ 4 ∧ (4:ℤ) ≤ 4 ∧ (0:ℚ) < 3 ∧ (0:ℚ) ≤ 1 ∧ (1:ℚ) ≤ 2 ∧ (2:ℚ) ≤ 3)
    ∧ (area_fraction 4 3 2 ≤ area_fraction 4 3 1
       ∧ area_fraction 4 3 0 = 1 ∧ area_fraction 4 3 3 = 0) :=
  ⟨by norm_num,
   C5_area_fraction_monotone 4 3 1 2 (by norm_num) (by norm_num) (by norm_num) (by norm_num)
     (by norm_num) (by norm_num)⟩

/-- Claim C6: for every catchment length > 0, the piecewise area formulas
agree exactly at their branch boundaries: the two pentagon branches at
cl / 2, and the adjacent hexagon branches at cl / 3 and 2 * cl / 3. -/
theorem C6_branch_continuity (cl : ℚ) (hcl : 0 < cl) :
    pentagon_area_rect cl (cl / 2) = pentagon_area_tri cl (cl / 2)
    ∧ hexagon_area_1 cl (cl / 3) = hexagon_area_2 cl (cl / 3)
    ∧ hexagon_area_2 cl (2 * cl / 3) = hexagon_area_3 cl (2 * cl / 3) := by
  have h : cl ≠ 0 := ne_of_gt hcl
  refine ⟨?_, ?_, ?_⟩ <;>
  · simp only [pentagon_area_rect, pentagon_area_tri, hexagon_area_1, hexagon_area_2,
      hexagon_area_3]
    field_simp
    ring

/-- Witness for C6 at cl = 8. -/
theorem C6_witness :
    (0:ℚ) < 8
    ∧ (pentagon_area_rect 8 (8 / 2) = pentagon_area_tri 8 (8 / 2)
       ∧ hexagon_area_1 8 (8 / 3) = hexagon_area_2 8 (8 / 3)
       ∧ hexagon_area_2 8 (2 * 8 / 3) = hexagon_area_3 8 (2 * 8 / 3)) :=
  ⟨by norm_num, C6_branch_continuity 8 (by norm_num)⟩

/-- Claim C7 (amended): with no explicit heads the sweep iterates exactly
the integers from 1 up to and including ceil(max_H) - 1 — which is
floor(max_H) when max_H is not an integer but excludes max_H itself when it
is an integer — where max_H = tan(slope) * catchment length; explicit heads
are used exactly as supplied, accepted iff every head is <= max_H (so a
head equal to max_H is accepted), and rejected with a DomainError iff some
head exceeds max_H. -/
theorem C7_head_sweep_range (ops : MathOps) (slope cl : ℚ) (hs : List ℤ) :
    (∀ h : ℤ, h ∈ default_heads (max_H ops slope cl) ↔ 1 ≤ h ∧ h ≤ ⌈max_H ops slope cl⌉ - 1)
    ∧ (validate_heads hs (max_H ops slope cl) = Except.ok hs
        ↔ ∀ h ∈ hs, (h : ℚ) ≤ max_H ops slope cl)
    ∧ (validate_heads hs (max_H ops slope cl) = Except.error DomainError.headTooLarge
        ↔ ∃ h ∈ hs, max_H ops slope cl < (h : ℚ)) := by
  generalize max_H ops slope cl = mh
  have hcond : (hs.all (fun h => decide ((h : ℚ) ≤ mh)) = true) ↔ ∀ h ∈ hs, (h : ℚ) ≤ mh := by
    simp [List.all_eq_true]
  refine ⟨?_, ?_, ?_⟩
  · intro h
    unfold default_heads
    constructor
    · intro hmem
      obtain ⟨m, hm, hcast⟩ := List.mem_map.mp hmem
      rw [List.mem_range'_1] at hm
      simp only [Int.ofNat_eq_coe] at hcast
      omega
    · intro hb
      refine List.mem_map.mpr ⟨h.toNat, ?_, ?_⟩
      · rw [List.mem_range'_1]
        omega
      · simp only [Int.ofNat_eq_coe]
        omega
  · unfold validate_heads
    by_cases hb : hs.all (fun h => decide ((h : ℚ) ≤ mh)) = true
    · rw [if_pos hb]
      exact iff_of_true rfl (hcond.mp hb)
    · rw [if_neg hb]
      constructor
      · intro hcontra; exact absurd hcontra (by simp)
      · intro hforall; exact absurd (hcond.mpr hforall) hb
  · unfold validate_heads
    by_cases hb : hs.all (fun h => decide ((h : ℚ) ≤ mh)) = true
    · rw [if_pos hb]
      constructor
      · intro hcontra; exact absurd hcontra (by simp)
      · rintro ⟨h, hmem, hlt⟩
        exact absurd (hcond.mp hb h hmem) (not_le.mpr hlt)
    · rw [if_neg hb]
      refine iff_of_true rfl ?_
      rw [hcond] at hb
      push_neg at hb
      obtain ⟨h, hmem, hgt⟩ := hb
      exact ⟨h, hmem, hgt⟩

/-- Witness for C7: with tan uniformly 1, slope 45 and cl 13, the supplied
list [13] has its head exactly equal to max_H = 13 and is accepted. -/
theorem C7_witness :
    validate_heads [13] (max_H probeOps 45 13) = Except.ok [13] :=
  (C7_head_sweep_range probeOps 45 13 [13]).2.1.mpr (by
    intro h hmem
    rw [List.mem_singleton.mp hmem]
    norm_num [max_H, probeOps])

/-- Counterexample for C7 as stated: with tan uniformly 1, slope 45 and
cl 13, max_H is exactly 13, so floor(max_H) = 13, yet the default sweep
range(1, int(ceil(13))) stops at 12 and does not include 13. -/
theorem C7_counterexample :
    ⌊max_H probeOps 45 13⌋ = 13 ∧ (13 : ℤ) ∉ default_heads (max_H probeOps 45 13) := by
  have hm : max_H probeOps 45 13 = 13 := by norm_num [max_H, probeOps]
  rw [hm]
  refine ⟨by norm_num, ?_⟩
  intro hmem
  unfold default_heads at hmem
  obtain ⟨m, hm', hcast⟩ := List.mem_map.mp hmem
  rw [List.mem_range'_1] at hm'
  simp only [Int.ofNat_eq_coe] at hcast
  have hc : (⌈(13:ℚ)⌉ : ℤ) = 13 := by norm_num
  omega

/-- Claim C8 (amended): on an empty pipe table the optimizer does not fail;
it returns the initial sentinel selection unchanged (diameter 0, empty
material, total annual cost 999999999.9). -/
theorem C8_empty_table_returns_sentinel (ops : MathOps) (head df pl FIT eff mp int : ℚ) :
    get_optimum_pipe_for_head ops head [] df pl FIT eff mp int = initOptimum := rfl

/-- Counterexample for C8 as stated: a concrete run on the empty table
returns the sentinel selection — a Pipe value with the sentinel cost and
empty material — rather than failing with any error (the source has no
failure path in get_optimum_pipe_for_head at all). -/
theorem C8_counterexample :
    get_optimum_pipe_for_head zeroLogOps 1 [] 1 1 1 1 1 1 = initOptimum
    ∧ initOptimum.total_annual_cost = 999999999.9
    ∧ initOptimum.material = "" :=
  ⟨rfl, rfl, rfl⟩

/-- Claim C9 (amended): get_area fails (models the source's sys.exit as
DomainError) exactly when the shape is not one of 1, 2, 3, 4; in
particular, no positivity validation is performed, so a non-positive
catchment length never causes a failure. -/
theorem C9_error_iff_unsupported_shape (t : ℤ) (cl Hz : ℚ) :
    (∃ e, get_area t cl Hz = Except.error e) ↔ t ≠ 1 ∧ t ≠ 2 ∧ t ≠ 3 ∧ t ≠ 4 := by
  unfold get_area
  by_cases h1 : t = 1 <;> by_cases h2 : t = 2 <;> by_cases h3 : t = 3 <;> by_cases h4 : t = 4 <;>
    simp [h1, h2, h3, h4]

/-- Counterexample for C9 as stated: the non-positive catchment length -1
is not rejected — get_area succeeds and returns the value 1. -/
theorem C9_counterexample :
    ((-1 : ℚ) < 0) ∧ get_area 1 (-1) 0 = Except.ok 1 := by
  constructor
  · norm_num
  · norm_num [get_area, triangle_area]

/-- Claim C10: on a row where PVC is not eligible, if the DI and GRP total
annual costs are exactly equal then the optimizer selects GRP for that row
(DI is chosen only when GRP is strictly more expensive). -/
theorem C10_tie_prefers_GRP (ops : MathOps) (head df pl FIT eff mp int : ℚ) (r : PipeRow)
    (hne : ¬(head ≤ PVC_Constraint_MaxHead ∧ r.diameter ≤ PVC_Constraint_MaxDiameter))
    (heq : rowCostGRP ops df pl FIT eff mp int r = rowCostDI ops df pl FIT eff mp int r) :
    (processRow ops head df pl FIT eff mp int r).material = "GRP" := by
  unfold rowCostGRP rowCostDI at heq
  unfold processRow
  rw [if_neg hne]
  simp only []
  rw [if_neg (by rw [heq]; exact lt_irrefl _)]

/-- Witness for C10: at head 121 (PVC ineligible), equal unit costs and
zero efficiency make the DI and GRP totals exactly equal, and GRP is
selected. -/
theorem C10_witness :
    (¬((121:ℚ) ≤ PVC_Constraint_MaxHead
        ∧ (PipeRow.mk 1 1 1 1).diameter ≤ PVC_Constraint_MaxDiameter))
    ∧ rowCostGRP zeroLogOps 1 1 0 0 0 1 (PipeRow.mk 1 1 1 1)
        = rowCostDI zeroLogOps 1 1 0 0 0 1 (PipeRow.mk 1 1 1 1)
    ∧ (processRow zeroLogOps 121 1 1 0 0 0 1 (PipeRow.mk 1 1 1 1)).material = "GRP" := by
  have hne : ¬((121:ℚ) ≤ PVC_Constraint_MaxHead
      ∧ (PipeRow.mk 1 1 1 1).diameter ≤ PVC_Constraint_MaxDiameter) := by
    norm_num [PVC_Constraint_MaxHead, PVC_Constraint_MaxDiameter]
  have heq : rowCostGRP zeroLogOps 1 1 0 0 0 1 (PipeRow.mk 1 1 1 1)
      = rowCostDI zeroLogOps 1 1 0 0 0 1 (PipeRow.mk 1 1 1 1) := by
    norm_num [rowCostGRP, rowCostDI, gfc_zeroLog_DI, gfc_zeroLog_GRP]
  exact ⟨hne, heq, C10_tie_prefers_GRP zeroLogOps 121 1 1 0 0 0 1 (PipeRow.mk 1 1 1 1) hne heq⟩

end EPIC
